import Mathlib

/-!
Shallow embedding of the reconciliation core of the pia-operator repository:
the error classifier and retry policy (src/pkg/errors/errors.go), the AWS
EKS Pod Identity Association client (src/pkg/awsclient/client.go), and the
ServiceAccount reconciler (src/internal/controller/serviceaccount_controller.go).
Remote APIs (the EKS endpoint and the cluster API) are modelled as response
oracles; durations are carried in seconds as naturals.
-/

set_option autoImplicit false

namespace PiaOperator

/-- Substring search on character lists: true when `pat` occurs inside `s`
(mirrors Go `strings.Contains`). -/
def listContainsSub (pat : List Char) : List Char → Bool
  | [] => pat.isEmpty
  | c :: rest => pat.isPrefixOf (c :: rest) || listContainsSub pat rest

/-- Go `strings.Contains s pat`. -/
def containsSubstr (s pat : String) : Bool :=
  listContainsSub pat.toList s.toList

/-- ASCII lowering of one character (the error messages the client lowers
before comparing are ASCII). -/
def lowerChar (c : Char) : Char :=
  if 65 ≤ c.toNat ∧ c.toNat ≤ 90 then Char.ofNat (c.toNat + 32) else c

/-- Go `strings.ToLower` on the ASCII error messages. -/
def strToLower (s : String) : String :=
  ⟨s.toList.map lowerChar⟩

/-- The status reasons distinguished by the k8s.io/apimachinery helpers that
`ClassifyError` consults (`IsNotFound`, `IsInvalid`, `IsBadRequest`,
`IsTooManyRequests`, `IsServiceUnavailable`, `IsTimeout`, `IsConflict`);
`other` stands for every error none of those helpers match. -/
inductive ErrReason
  | notFound
  | invalid
  | badRequest
  | tooManyRequests
  | serviceUnavailable
  | timeout
  | conflict
  | other
deriving DecidableEq

/-- An error value as the Go code observes it: the apimachinery status reason
(preserved by `fmt.Errorf("...: %w", err)` wrapping), the message returned by
`Error()`, and whether the chain holds an `eks/types.ResourceNotFoundException`
(what `errors.As` finds in `isNotFoundError`). -/
structure Err where
  reason : ErrReason
  msg : String
  isEksNotFoundType : Bool := false
deriving DecidableEq

/-- `fmt.Errorf(prefixMsg + "%w", e)`: prepends to the message, keeps the
wrapped chain (reason and typed not-found information survive unwrapping). -/
def wrapErr (prefixMsg : String) (e : Err) : Err :=
  { e with msg := prefixMsg ++ e.msg }

/-- Retry and backoff configuration (src/pkg/errors/errors.go lines 14-19);
delays in seconds. -/
def maxRetryAttempts : Nat := 5

/-- `baseRetryDelay = 30 * time.Second`, in seconds. -/
def baseRetryDelay : Nat := 30

/-- `maxRetryDelay = 5 * time.Minute`, in seconds. -/
def maxRetryDelay : Nat := 300

/-- Error classification (src/pkg/errors/errors.go). -/
inductive ErrorClassification
  | ErrorPermanent
  | ErrorTransient
  | ErrorRetryable
deriving DecidableEq

open ErrorClassification

/-- `ClassifyError` (src/pkg/errors/errors.go lines 48-70). A nil error is
`none`. -/
def classifyError : Option Err → ErrorClassification
  | none => ErrorRetryable
  | some e =>
    if e.reason = .notFound ∨ e.reason = .invalid ∨ e.reason = .badRequest then
      ErrorPermanent
    else if e.reason = .tooManyRequests ∨ e.reason = .serviceUnavailable
        ∨ e.reason = .timeout then
      ErrorTransient
    else if e.reason = .conflict then
      ErrorRetryable
    else
      ErrorTransient

/-- The loop of `CalculateBackoff`:
`for i := 0; i < retryCount && delay < maxRetryDelay; i++ { delay *= 2 }`. -/
def backoffLoop : Nat → Nat → Nat
  | 0, delay => delay
  | n + 1, delay => if delay < maxRetryDelay then backoffLoop n (delay * 2) else delay

/-- `CalculateBackoff` (src/pkg/errors/errors.go lines 74-83). -/
def calculateBackoff (retryCount : Nat) : Nat :=
  let delay := backoffLoop retryCount baseRetryDelay
  if delay > maxRetryDelay then maxRetryDelay else delay

/-- `ctrl.Result`: the scheduling decision handed back to the dispatcher. -/
structure CtrlResult where
  requeue : Bool := false
  requeueAfter : Nat := 0
deriving DecidableEq

/-- The in-memory per-object retry table `retryCounts map[string]int`
(absent key reads as 0, matching the Go map zero value). -/
abbrev RetryCounts := List (String × Nat)

/-- The watched identity object (corev1.ServiceAccount), restricted to the
fields the core reads: name, namespace (`ns`; `namespace` is a Lean keyword),
the annotations map (Go's nil map is modelled as the empty list), the
finalizer list, and whether DeletionTimestamp is non-nil. -/
structure ServiceAccount where
  name : String
  ns : String
  annotations : List (String × String)
  finalizers : List String
  hasDeletionTimestamp : Bool := false
deriving DecidableEq

/-- Go `sa.Annotations[k]` (missing key reads as the zero value ""). -/
def getAnn (sa : ServiceAccount) (k : String) : String :=
  (sa.annotations.lookup k).getD ""

/-- Go `v, ok := sa.Annotations[k]` as an Option. -/
def lookupAnn (sa : ServiceAccount) (k : String) : Option String :=
  sa.annotations.lookup k

/-- Go `sa.Annotations[k] = v`. -/
def setAnn (sa : ServiceAccount) (k v : String) : ServiceAccount :=
  { sa with annotations := (k, v) :: sa.annotations.filter (fun p => p.1 ≠ k) }

/-- Go `delete(sa.Annotations, k)`. -/
def delAnn (sa : ServiceAccount) (k : String) : ServiceAccount :=
  { sa with annotations := sa.annotations.filter (fun p => p.1 ≠ k) }

/-- `controllerutil.ContainsFinalizer`. -/
def containsFinalizer (sa : ServiceAccount) (f : String) : Bool :=
  sa.finalizers.contains f

/-- `controllerutil.AddFinalizer` (appends when absent). -/
def addFinalizer (sa : ServiceAccount) (f : String) : ServiceAccount :=
  if sa.finalizers.contains f then sa
  else { sa with finalizers := sa.finalizers ++ [f] }

/-- `controllerutil.RemoveFinalizer` (removes every occurrence). -/
def removeFinalizer (sa : ServiceAccount) (f : String) : ServiceAccount :=
  { sa with finalizers := sa.finalizers.filter (fun x => x ≠ f) }

/-- The retry-table key `sa.Namespace + "/" + sa.Name`. -/
def saKey (sa : ServiceAccount) : String :=
  sa.ns ++ "/" ++ sa.name

/-- `GetRetryCount` (src/pkg/errors/errors.go lines 86-89). -/
def getRetryCount (counts : RetryCounts) (sa : ServiceAccount) : Nat :=
  (counts.lookup (saKey sa)).getD 0

/-- `SetRetryCount` (src/pkg/errors/errors.go lines 92-95). -/
def setRetryCount (counts : RetryCounts) (sa : ServiceAccount) (n : Nat) : RetryCounts :=
  (saKey sa, n) :: counts.filter (fun p => p.1 ≠ saKey sa)

/-- `ResetRetryCount` (sets the entry to 0). -/
def resetRetryCount (counts : RetryCounts) (sa : ServiceAccount) : RetryCounts :=
  setRetryCount counts sa 0

/-- `MarkSuccess` only resets the retry count (src/pkg/errors/errors.go
lines 185-187). -/
def markSuccess (counts : RetryCounts) (sa : ServiceAccount) : RetryCounts :=
  resetRetryCount counts sa

/-- `HandleError` (src/pkg/errors/errors.go lines 100-135): returns the new
retry table, the `ctrl.Result`, and the returned error (nil in every branch).
The Go switch's unreachable default collapses into the Retryable arm, whose
behavior it repeats. -/
def handleError (counts : RetryCounts) (sa : ServiceAccount) (err : Option Err) :
    RetryCounts × CtrlResult × Option Err :=
  match err with
  | none => (counts, {}, none)
  | some e =>
    match classifyError (some e) with
    | ErrorPermanent => (counts, {}, none)
    | ErrorTransient =>
      let retryCount := getRetryCount counts sa
      if retryCount ≥ maxRetryAttempts then
        (counts, { requeueAfter := maxRetryDelay }, none)
      else
        (setRetryCount counts sa (retryCount + 1),
         { requeueAfter := calculateBackoff retryCount }, none)
    | ErrorRetryable => (counts, { requeue := true }, none)

/-- `HandleDeletionError` (src/pkg/errors/errors.go lines 139-176): like
`HandleError` but a Transient failure at the attempt ceiling yields an empty
result (continue) instead of a capped-delay requeue. -/
def handleDeletionError (counts : RetryCounts) (sa : ServiceAccount) (err : Option Err) :
    RetryCounts × CtrlResult × Option Err :=
  match err with
  | none => (counts, {}, none)
  | some e =>
    match classifyError (some e) with
    | ErrorPermanent => (counts, {}, none)
    | ErrorTransient =>
      let retryCount := getRetryCount counts sa
      if retryCount ≥ maxRetryAttempts then
        (counts, {}, none)
      else
        (setRetryCount counts sa (retryCount + 1),
         { requeueAfter := calculateBackoff retryCount }, none)
    | ErrorRetryable => (counts, { requeue := true }, none)

/-- Annotation keys and the finalizer
(src/internal/controller/serviceaccount_controller.go lines 45-55). -/
def PodIdentityAssociationRoleAnnotation : String :=
  "pia-operator.eks.aws.com/role"

/-- The optional assume-role annotation key. -/
def PodIdentityAssociationAssumeRoleAnnotation : String :=
  "pia-operator.eks.aws.com/assume-role"

/-- The cleanup finalizer token. -/
def PodIdentityAssociationFinalizer : String :=
  "pia-operator.eks.aws.com/finalizer"

/-- The cached association-id annotation key (also hard-coded as a literal in
src/pkg/awsclient/client.go). -/
def PodIdentityAssociationIDAnnotation : String :=
  "pia-operator.eks.aws.com/association-id"

/-- The external association as the client returns it
(src/pkg/awsclient/client.go `PodIdentityAssociation`, fields the core
reads). -/
structure PodIdentityAssociation where
  id : String
  clusterName : String := ""
  ns : String
  serviceAccountName : String
  roleArn : String := ""
  tags : List (String × String) := []
deriving DecidableEq

/-- The create request payload as `CreatePodIdentityAssociation` builds it
(src/pkg/awsclient/client.go lines 52-69). -/
structure CreatePodIdentityAssociationInput where
  clusterName : String
  ns : String
  serviceAccount : String
  roleArn : String
  targetRoleArn : Option String
  tags : List (String × String)
deriving DecidableEq

/-- The update request payload (src/pkg/awsclient/client.go lines 107-116). -/
structure UpdatePodIdentityAssociationInput where
  clusterName : String
  associationId : String
  roleArn : String
  targetRoleArn : Option String
deriving DecidableEq

/-- The EKS endpoint, as a response oracle: what each remote operation
returns for a given request. -/
structure EksApi where
  describeResp : String → Except Err PodIdentityAssociation
  createResp : CreatePodIdentityAssociationInput → Except Err String
  updateResp : UpdatePodIdentityAssociationInput → Option Err
  deleteResp : String → Option Err
  listResp : Except Err (List PodIdentityAssociation)

/-- `isNotFoundError` (src/pkg/awsclient/client.go lines 255-269); the nil
check of the Go code is the callers' responsibility here, every call site
passes a non-nil error. -/
def isNotFoundError (e : Err) : Bool :=
  e.isEksNotFoundType
    || containsSubstr e.msg "ResourceNotFoundException"
    || containsSubstr e.msg "not found"
    || containsSubstr e.msg "NotFound"
    || containsSubstr (strToLower e.msg) "notfound"

/-- `ListPodIdentityAssociations` (src/pkg/awsclient/client.go lines 215-236):
pagination collapses into the oracle's single list response; a page failure
is wrapped. -/
def listPodIdentityAssociations (api : EksApi) : Except Err (List PodIdentityAssociation) :=
  match api.listResp with
  | .error e => .error (wrapErr "failed to list Pod Identity Associations: " e)
  | .ok assocs => .ok assocs

/-- `findAssociationByServiceAccount` (src/pkg/awsclient/client.go
lines 239-252). -/
def findAssociationByServiceAccount (api : EksApi) (sa : ServiceAccount) :
    Except Err PodIdentityAssociation :=
  match listPodIdentityAssociations api with
  | .error e => .error e
  | .ok assocs =>
    match assocs.find? (fun a => a.ns == sa.ns && a.serviceAccountName == sa.name) with
    | some a => .ok a
    | none =>
      .error { reason := .other,
               msg := "Pod Identity Association not found for ServiceAccount "
                        ++ sa.ns ++ "/" ++ sa.name }

/-- `GetPodIdentityAssociation` (src/pkg/awsclient/client.go lines 178-200):
describe by the cached annotation id when non-empty (a not-found describe is
replaced by the fabricated error `errors.New("Pod Identity Association not
found")`), else fall back to the list-and-scan lookup. -/
def getPodIdentityAssociation (api : EksApi) (sa : ServiceAccount) :
    Except Err PodIdentityAssociation :=
  let associationID := getAnn sa PodIdentityAssociationIDAnnotation
  if associationID ≠ "" then
    match api.describeResp associationID with
    | .error e =>
      if isNotFoundError e then
        .error { reason := .other, msg := "Pod Identity Association not found" }
      else
        .error (wrapErr "failed to describe Pod Identity Association: " e)
    | .ok a => .ok a
  else
    findAssociationByServiceAccount api sa

/-- `AssociationExists` (src/pkg/awsclient/client.go lines 203-212). -/
def associationExists (api : EksApi) (sa : ServiceAccount) : Bool × Option Err :=
  match getPodIdentityAssociation api sa with
  | .error e =>
    if containsSubstr e.msg "not found" then (false, none) else (false, some e)
  | .ok _ => (true, none)

/-- The tag map built by `CreatePodIdentityAssociation`
(src/pkg/awsclient/client.go lines 57-69). -/
def createTags (sa : ServiceAccount) (roleArn assumeRoleArn : String) :
    List (String × String) :=
  let base := [("managed-by", "pia-operator"), ("serviceaccount", sa.name),
               ("namespace", sa.ns), ("base-role", roleArn)]
  if assumeRoleArn ≠ "" then base ++ [("assume-role", assumeRoleArn)] else base

/-- The request `CreatePodIdentityAssociation` issues
(src/pkg/awsclient/client.go lines 52-69). -/
def buildCreateInput (clusterName : String) (sa : ServiceAccount)
    (roleArn assumeRoleArn : String) : CreatePodIdentityAssociationInput :=
  { clusterName, ns := sa.ns, serviceAccount := sa.name, roleArn,
    targetRoleArn := if assumeRoleArn ≠ "" then some assumeRoleArn else none,
    tags := createTags sa roleArn assumeRoleArn }

/-- `CreatePodIdentityAssociation` (src/pkg/awsclient/client.go lines 49-88):
on success the client writes the returned id into the ServiceAccount's
association-id annotation and returns both. -/
def createPodIdentityAssociationAws (api : EksApi) (clusterName : String)
    (sa : ServiceAccount) (roleArn assumeRoleArn : String) :
    Except Err (ServiceAccount × String) :=
  match api.createResp (buildCreateInput clusterName sa roleArn assumeRoleArn) with
  | .error e => .error (wrapErr "failed to create Pod Identity Association: " e)
  | .ok associationID =>
    .ok (setAnn sa PodIdentityAssociationIDAnnotation associationID, associationID)

/-- `UpdatePodIdentityAssociation` (src/pkg/awsclient/client.go lines 93-133):
resolve the id (cached annotation, else list-and-scan), then issue the update
request. -/
def updatePodIdentityAssociationAws (api : EksApi) (clusterName : String)
    (sa : ServiceAccount) (roleArn assumeRoleArn : String) : Except Err String :=
  let cached := getAnn sa PodIdentityAssociationIDAnnotation
  let resolved : Except Err String :=
    if cached = "" then
      match findAssociationByServiceAccount api sa with
      | .error e => .error (wrapErr "failed to find existing association: " e)
      | .ok a => .ok a.id
    else .ok cached
  match resolved with
  | .error e => .error e
  | .ok associationID =>
    match api.updateResp
        { clusterName := clusterName, associationId := associationID,
          roleArn := roleArn,
          targetRoleArn := if assumeRoleArn ≠ "" then some assumeRoleArn else none } with
    | some e => .error (wrapErr "failed to update Pod Identity Association: " e)
    | none => .ok associationID

/-- The delete call shared by both branches of `DeletePodIdentityAssociation`
(src/pkg/awsclient/client.go lines 155-172): a not-found response counts as
success. -/
def deleteById (api : EksApi) (associationID : String) : Option Err :=
  match api.deleteResp associationID with
  | some e =>
    if isNotFoundError e then none
    else some (wrapErr "failed to delete Pod Identity Association: " e)
  | none => none

/-- `DeletePodIdentityAssociation` (src/pkg/awsclient/client.go lines 138-173):
resolve the id (cached annotation, else list-and-scan; a not-found resolution
counts as already deleted), then delete. -/
def deletePodIdentityAssociationAws (api : EksApi) (sa : ServiceAccount) : Option Err :=
  let associationID := getAnn sa PodIdentityAssociationIDAnnotation
  if associationID = "" then
    match findAssociationByServiceAccount api sa with
    | .error e =>
      if isNotFoundError e then none
      else some (wrapErr "failed to find existing association: " e)
    | .ok a => deleteById api a.id
  else
    deleteById api associationID

/-- The cluster API as the reconciler reaches it: the fetch response for the
triggering request, `K8sClient.UpdateServiceAccount`, and the
controller-runtime `r.Update` (used for finalizer changes in ways the
K8sClient is not). -/
structure K8sApi where
  getResp : Except Err ServiceAccount
  updateSAResp : ServiceAccount → Option Err
  ctrlUpdateResp : ServiceAccount → Option Err

/-- What one reconcile pass leaves behind: the retry table, the final
in-memory identity object (none when the fetch failed), and the
`(ctrl.Result, error)` pair handed to the dispatcher. -/
structure ReconcileOutcome where
  counts : RetryCounts
  sa : Option ServiceAccount
  result : CtrlResult
  err : Option Err
deriving DecidableEq

/-- `deletePodIdentityAssociation` on the reconciler
(src/internal/controller/serviceaccount_controller.go lines 233-252): AWS
delete, then strip the assume-role and association-id annotations and persist
(skipped when the annotations map is nil, modelled as the empty list). -/
def deletePodIdentityAssociationCtrl (api : EksApi) (k8s : K8sApi)
    (sa : ServiceAccount) : ServiceAccount × Option Err :=
  match deletePodIdentityAssociationAws api sa with
  | some e => (sa, some e)
  | none =>
    if sa.annotations.isEmpty then (sa, none)
    else
      let sa' := delAnn (delAnn sa PodIdentityAssociationAssumeRoleAnnotation)
                   PodIdentityAssociationIDAnnotation
      match k8s.updateSAResp sa' with
      | some e => (sa', some e)
      | none => (sa', none)

/-- `handleDeletion` (src/internal/controller/serviceaccount_controller.go
lines 214-229): with the finalizer present, delete the association (a failure
routes through `HandleDeletionError` and returns), then remove the finalizer
and persist via `r.Update`. -/
def handleDeletion (api : EksApi) (k8s : K8sApi) (counts : RetryCounts)
    (sa : ServiceAccount) : ReconcileOutcome :=
  if containsFinalizer sa PodIdentityAssociationFinalizer then
    match deletePodIdentityAssociationCtrl api k8s sa with
    | (sa', some e) =>
      let (counts', res, err) := handleDeletionError counts sa' (some e)
      ⟨counts', some sa', res, err⟩
    | (sa', none) =>
      let sa'' := removeFinalizer sa' PodIdentityAssociationFinalizer
      match k8s.ctrlUpdateResp sa'' with
      | some e =>
        let (counts', res, err) := handleDeletionError counts sa'' (some e)
        ⟨counts', some sa'', res, err⟩
      | none => ⟨counts, some sa'', {}, none⟩
  else ⟨counts, some sa, {}, none⟩

/-- `cleanupPodIdentityAssociation`
(src/internal/controller/serviceaccount_controller.go lines 256-276): the
role annotation was withdrawn; with the finalizer present, delete the
association, remove the finalizer (persisted via `K8sClient`), and reset the
retry count. -/
def cleanupPodIdentityAssociation (api : EksApi) (k8s : K8sApi)
    (counts : RetryCounts) (sa : ServiceAccount) : ReconcileOutcome :=
  if ¬ containsFinalizer sa PodIdentityAssociationFinalizer then
    ⟨counts, some sa, {}, none⟩
  else
    match deletePodIdentityAssociationCtrl api k8s sa with
    | (sa', some e) =>
      let (counts', res, err) := handleDeletionError counts sa' (some e)
      ⟨counts', some sa', res, err⟩
    | (sa', none) =>
      let sa'' := removeFinalizer sa' PodIdentityAssociationFinalizer
      match k8s.updateSAResp sa'' with
      | some e =>
        let (counts', res, err) := handleDeletionError counts sa'' (some e)
        ⟨counts', some sa'', res, err⟩
      | none => ⟨resetRetryCount counts sa'', some sa'', {}, none⟩

/-- `updatePodIdentityAssociation` on the reconciler
(src/internal/controller/serviceaccount_controller.go lines 169-182): a
failure runs through `HandleError`; when that verdict requeues, the original
(wrapped) error is returned to trigger the dispatcher's requeue; otherwise
the function falls through to the success log and returns the zero-value id
with nil error. -/
def updatePodIdentityAssociationCtrl (api : EksApi) (clusterName : String)
    (counts : RetryCounts) (sa : ServiceAccount) (roleArn assumeRoleArn : String) :
    RetryCounts × String × Option Err :=
  match updatePodIdentityAssociationAws api clusterName sa roleArn assumeRoleArn with
  | .ok associationID => (counts, associationID, none)
  | .error e =>
    let (counts', res, handleErr) := handleError counts sa (some e)
    match handleErr with
    | some he => (counts', "", some he)
    | none =>
      if res.requeue || res.requeueAfter > 0 then (counts', "", some e)
      else (counts', "", none)

/-- `createPodIdentityAssociation` on the reconciler
(src/internal/controller/serviceaccount_controller.go lines 186-199): same
error policy as the update helper; on success the client has already cached
the id on the in-memory object. -/
def createPodIdentityAssociationCtrl (api : EksApi) (clusterName : String)
    (counts : RetryCounts) (sa : ServiceAccount) (roleArn assumeRoleArn : String) :
    RetryCounts × ServiceAccount × String × Option Err :=
  match createPodIdentityAssociationAws api clusterName sa roleArn assumeRoleArn with
  | .ok (sa', associationID) => (counts, sa', associationID, none)
  | .error e =>
    let (counts', res, handleErr) := handleError counts sa (some e)
    match handleErr with
    | some he => (counts', sa, "", some he)
    | none =>
      if res.requeue || res.requeueAfter > 0 then (counts', sa, "", some e)
      else (counts', sa, "", none)

/-- `reconcilePodIdentityAssociation`
(src/internal/controller/serviceaccount_controller.go lines 126-164):
existence check, create or update, persist the returned id into the
association-id annotation when non-empty, mark success. -/
def reconcilePodIdentityAssociation (api : EksApi) (k8s : K8sApi)
    (clusterName : String) (counts : RetryCounts) (sa : ServiceAccount)
    (roleArn assumeRoleArn : String) : ReconcileOutcome :=
  match associationExists api sa with
  | (_, some e) =>
    let (counts', res, err) := handleError counts sa (some e)
    ⟨counts', some sa, res, err⟩
  | (existsFlag, none) =>
    let step : RetryCounts × ServiceAccount × String × Option Err :=
      if existsFlag then
        let (c, id, e) := updatePodIdentityAssociationCtrl api clusterName counts sa
          roleArn assumeRoleArn
        (c, sa, id, e)
      else
        createPodIdentityAssociationCtrl api clusterName counts sa roleArn assumeRoleArn
    match step with
    | (counts1, sa1, _, some e) => ⟨counts1, some sa1, {}, some e⟩
    | (counts1, sa1, associationID, none) =>
      if associationID ≠ "" then
        let sa2 := setAnn sa1 PodIdentityAssociationIDAnnotation associationID
        match k8s.updateSAResp sa2 with
        | some e =>
          let (counts', res, err) := handleError counts1 sa2 (some e)
          ⟨counts', some sa2, res, err⟩
        | none => ⟨markSuccess counts1 sa2, some sa2, {}, none⟩
      else ⟨markSuccess counts1 sa1, some sa1, {}, none⟩

/-- `Reconcile` (src/internal/controller/serviceaccount_controller.go
lines 75-121): fetch, branch on the deletion marker and the role annotation,
ensure the finalizer, then create/update. -/
def reconcile (api : EksApi) (k8s : K8sApi) (clusterName : String)
    (counts : RetryCounts) : ReconcileOutcome :=
  match k8s.getResp with
  | .error e =>
    if e.reason = .notFound then ⟨counts, none, {}, none⟩
    else ⟨counts, none, {}, some e⟩
  | .ok serviceAccount =>
    if serviceAccount.hasDeletionTimestamp then
      handleDeletion api k8s counts serviceAccount
    else
      match lookupAnn serviceAccount PodIdentityAssociationRoleAnnotation with
      | none => cleanupPodIdentityAssociation api k8s counts serviceAccount
      | some roleArn =>
        let assumeRoleArn := getAnn serviceAccount PodIdentityAssociationAssumeRoleAnnotation
        if ¬ containsFinalizer serviceAccount PodIdentityAssociationFinalizer then
          let sa1 := addFinalizer serviceAccount PodIdentityAssociationFinalizer
          match k8s.ctrlUpdateResp sa1 with
          | some e => ⟨counts, some sa1, {}, some e⟩
          | none =>
            reconcilePodIdentityAssociation api k8s clusterName counts sa1
              roleArn assumeRoleArn
        else
          reconcilePodIdentityAssociation api k8s clusterName counts serviceAccount
            roleArn assumeRoleArn

/-- Modelled from the spec: the tagging annotation key. The tagging-aware
controller constant `PodIdentityAssociationTaggingAnnotation` is code of this
repository that is not under src/ (only the controller tests reference it);
the spec's annotation table names the key `tagging`. -/
def PodIdentityAssociationTaggingAnnotation : String :=
  "pia-operator.eks.aws.com/tagging"

/-- Modelled from the spec: the tagging-aware Desired State derivation is not
under src/; per the spec, `taggingEnabled` defaults true and is false only
when the tagging annotation's value is exactly the literal "false". -/
def taggingEnabled (sa : ServiceAccount) : Bool :=
  !(lookupAnn sa PodIdentityAssociationTaggingAnnotation == some "false")

/-- Modelled from the spec: the tagging-aware create request builder is not
under src/ (only the tests call the five-argument
`CreatePodIdentityAssociation`); per the spec it "builds a request carrying
namespace, identity name, base role ARN, optional target role ARN, and (if
tagging enabled) a descriptive tag set including base-role and assume-role
values". -/
def buildCreateInputTagged (clusterName : String) (sa : ServiceAccount)
    (roleArn assumeRoleArn : String) (tagging : Bool) :
    CreatePodIdentityAssociationInput :=
  { clusterName := clusterName, ns := sa.ns, serviceAccount := sa.name,
    roleArn := roleArn,
    targetRoleArn := if assumeRoleArn ≠ "" then some assumeRoleArn else none,
    tags := if tagging then createTags sa roleArn assumeRoleArn else [] }

/-! Helper lemmas. -/

lemma backoffLoop_of_ge (n d : Nat) (h : ¬ d < maxRetryDelay) :
    backoffLoop n d = d := by
  cases n with
  | zero => rfl
  | succ n => simp [backoffLoop, h]

lemma backoffLoop_succ (n d : Nat) :
    backoffLoop (n + 1) d =
      if backoffLoop n d < maxRetryDelay then backoffLoop n d * 2
      else backoffLoop n d := by
  induction n generalizing d with
  | zero => simp [backoffLoop]
  | succ n ih =>
    by_cases h : d < maxRetryDelay
    · have h1 : backoffLoop (n + 1 + 1) d = backoffLoop (n + 1) (d * 2) := by
        simp [backoffLoop, h]
      have h2 : backoffLoop (n + 1) d = backoffLoop n (d * 2) := by
        simp [backoffLoop, h]
      rw [h1, ih, h2]
    · rw [backoffLoop_of_ge _ _ h, backoffLoop_of_ge _ _ h]
      simp [h]

lemma le_backoffLoop (n d : Nat) : d ≤ backoffLoop n d := by
  induction n generalizing d with
  | zero => exact Nat.le_refl d
  | succ n ih =>
    by_cases h : d < maxRetryDelay
    · have : backoffLoop (n + 1) d = backoffLoop n (d * 2) := by
        simp [backoffLoop, h]
      rw [this]
      exact Nat.le_trans (Nat.le_mul_of_pos_right d (by norm_num)) (ih (d * 2))
    · rw [backoffLoop_of_ge _ _ h]

lemma backoffLoop_eq_480 (n : Nat) (h : 4 ≤ n) : backoffLoop n 30 = 480 := by
  induction n with
  | zero => omega
  | succ n ih =>
    rcases Nat.lt_or_ge n 4 with h4 | h4
    · have : n = 3 := by omega
      subst this
      decide
    · rw [backoffLoop_succ, ih h4]
      norm_num [maxRetryDelay]

lemma calculateBackoff_pos (n : Nat) : 0 < calculateBackoff n := by
  unfold calculateBackoff
  have h30 : 30 ≤ backoffLoop n 30 := le_backoffLoop n 30
  dsimp only [baseRetryDelay, maxRetryDelay]
  split <;> omega

lemma getAnn_setAnn (sa : ServiceAccount) (k v : String) :
    getAnn (setAnn sa k v) k = v := by
  simp [getAnn, setAnn, List.lookup]

lemma contains_filter_ne (f : String) :
    ∀ l : List String, (l.filter (fun x => x ≠ f)).contains f = false
  | [] => rfl
  | x :: xs => by
    by_cases h : x = f
    · simpa [List.filter, h] using contains_filter_ne f xs
    · simp [List.filter, h, List.contains_cons, contains_filter_ne f xs]
      exact fun hc => h hc.symm

lemma containsFinalizer_removeFinalizer (sa : ServiceAccount) (f : String) :
    containsFinalizer (removeFinalizer sa f) f = false := by
  simpa [containsFinalizer, removeFinalizer] using contains_filter_ne f sa.finalizers

lemma handleError_err_none (counts : RetryCounts) (sa : ServiceAccount)
    (err : Option Err) : (handleError counts sa err).2.2 = none := by
  unfold handleError
  rcases err with _ | e
  · rfl
  · cases h : classifyError (some e) <;> simp [h] <;> split <;> rfl

lemma handleDeletionError_err_none (counts : RetryCounts) (sa : ServiceAccount)
    (err : Option Err) : (handleDeletionError counts sa err).2.2 = none := by
  unfold handleDeletionError
  rcases err with _ | e
  · rfl
  · cases h : classifyError (some e) <;> simp [h] <;> split <;> rfl

lemma err_of_handleError (counts : RetryCounts) (sa : ServiceAccount)
    (e : Option Err) (c : RetryCounts) (r : CtrlResult) (er : Option Err)
    (h : handleError counts sa e = (c, r, er)) : er = none := by
  have h2 := handleError_err_none counts sa e
  rw [h] at h2
  exact h2

lemma err_of_handleDeletionError (counts : RetryCounts) (sa : ServiceAccount)
    (e : Option Err) (c : RetryCounts) (r : CtrlResult) (er : Option Err)
    (h : handleDeletionError counts sa e = (c, r, er)) : er = none := by
  have h2 := handleDeletionError_err_none counts sa e
  rw [h] at h2
  exact h2

/-! Claim theorems. -/

/-- C4: for every retry count n, the computed backoff delay with base 30s and
cap 300s equals min(30·2^n, 300) seconds; in particular counts 0,1,2,3,4
yield 30s, 60s, 120s, 240s, 300s and every count ≥ 5 yields 300s. -/
theorem C4_backoff_formula (n : Nat) :
    calculateBackoff n = min (30 * 2 ^ n) 300 := by
  rcases Nat.lt_or_ge n 4 with h | h
  · interval_cases n <;> decide
  · have hl : backoffLoop n 30 = 480 := backoffLoop_eq_480 n h
    have hpow : 480 ≤ 30 * 2 ^ n := by
      calc 480 = 30 * 2 ^ 4 := by norm_num
        _ ≤ 30 * 2 ^ n := by
            exact Nat.mul_le_mul_left 30 (Nat.pow_le_pow_right (by norm_num) h)
    unfold calculateBackoff baseRetryDelay maxRetryDelay
    rw [hl]
    have hmin : min (30 * 2 ^ n) 300 = 300 := by omega
    rw [hmin]
    norm_num

/-- A concrete identity object used by the witnesses. -/
def saSample : ServiceAccount :=
  { name := "test-sa", ns := "default", annotations := [], finalizers := [] }

/-- A concrete not-found failure used by the witnesses. -/
def errNotFound : Err :=
  { reason := .notFound, msg := "serviceaccounts \"test-sa\" not found" }

/-- A concrete conflict failure used by the witnesses. -/
def errConflict : Err :=
  { reason := .conflict, msg := "Operation cannot be fulfilled: object modified" }

/-- A concrete timeout failure used by the witnesses. -/
def errTimeout : Err :=
  { reason := .timeout, msg := "request timed out" }

/-- C5: the classifier maps not-found / invalid / bad-request failures to
Permanent, rate-limited / service-unavailable / timeout failures to
Transient and conflict failures to Retryable; the handler ends a
Permanent-classified cycle with an empty result and nil error, and answers a
Retryable classification with an immediate requeue, no delay and no retry
counter change. -/
theorem C5_classification_policy (e : Err) (counts : RetryCounts) (sa : ServiceAccount) :
    ((e.reason = .notFound ∨ e.reason = .invalid ∨ e.reason = .badRequest) →
       classifyError (some e) = ErrorPermanent)
  ∧ ((e.reason = .tooManyRequests ∨ e.reason = .serviceUnavailable ∨ e.reason = .timeout) →
       classifyError (some e) = ErrorTransient)
  ∧ (e.reason = .conflict → classifyError (some e) = ErrorRetryable)
  ∧ (classifyError (some e) = ErrorPermanent →
       handleError counts sa (some e) = (counts, {}, none))
  ∧ (classifyError (some e) = ErrorRetryable →
       handleError counts sa (some e) = (counts, { requeue := true }, none)) := by
  refine ⟨?_, ?_, ?_, ?_, ?_⟩
  · rintro (h | h | h) <;> simp [classifyError, h]
  · rintro (h | h | h) <;> simp [classifyError, h]
  · intro h
    simp [classifyError, h]
  · intro h
    simp [handleError, h]
  · intro h
    simp [handleError, h]

/-- Witness for C5 at concrete errors: a not-found failure is Permanent and
ends with an empty result; a conflict failure is Retryable and requeues
immediately with the retry table untouched. -/
theorem C5_witness :
    classifyError (some errNotFound) = ErrorPermanent
  ∧ handleError [] saSample (some errNotFound) = ([], {}, none)
  ∧ handleError [] saSample (some errConflict) = ([], { requeue := true }, none) := by
  refine ⟨?_, ?_, ?_⟩
  · exact (C5_classification_policy errNotFound [] saSample).1 (Or.inl rfl)
  · exact (C5_classification_policy errNotFound [] saSample).2.2.2.1 (by decide)
  · exact (C5_classification_policy errConflict [] saSample).2.2.2.2 (by decide)

/-- C6: on a Transient classification, a retry count below the attempt
ceiling (5) is incremented and the requeue delay is the exponential backoff
of the old count; at or above the ceiling the handler still requeues after
the capped maximum of 300s with nil error and an unchanged table; in every
Transient case the returned delay is positive, so the loop never stops
rescheduling. -/
theorem C6_transient_policy (counts : RetryCounts) (sa : ServiceAccount) (e : Err)
    (ht : classifyError (some e) = ErrorTransient) :
    (getRetryCount counts sa < maxRetryAttempts →
       handleError counts sa (some e) =
         (setRetryCount counts sa (getRetryCount counts sa + 1),
          { requeueAfter := calculateBackoff (getRetryCount counts sa) }, none))
  ∧ (maxRetryAttempts ≤ getRetryCount counts sa →
       handleError counts sa (some e) = (counts, { requeueAfter := 300 }, none))
  ∧ 0 < (handleError counts sa (some e)).2.1.requeueAfter
  ∧ (handleError counts sa (some e)).2.2 = none := by
  refine ⟨?_, ?_, ?_, handleError_err_none counts sa (some e)⟩
  · intro h
    simp [handleError, ht, Nat.not_le.mpr h]
  · intro h
    simp [handleError, ht, h]
    rfl
  · by_cases h : maxRetryAttempts ≤ getRetryCount counts sa
    · simp [handleError, ht, h]
      decide
    · simp [handleError, ht, h]
      exact calculateBackoff_pos _

/-- Witness for C6 at a concrete timeout failure: below the ceiling the count
becomes 1 and the delay 30s; at the ceiling the delay is the 300s cap. -/
theorem C6_witness :
    handleError [] saSample (some errTimeout)
      = ([("default/test-sa", 1)], { requeueAfter := 30 }, none)
  ∧ handleError [("default/test-sa", 5)] saSample (some errTimeout)
      = ([("default/test-sa", 5)], { requeueAfter := 300 }, none) := by
  constructor
  · have h := (C6_transient_policy [] saSample errTimeout (by decide)).1 (by decide)
    simpa [saSample] using h
  · exact (C6_transient_policy [("default/test-sa", 5)] saSample errTimeout
      (by decide)).2.1 (by decide)

/-- C10: AssociationExists answers (true, nil) exactly when resolution
succeeds; a failure whose message holds the substring "not found" — the
fabricated describe-by-cached-id not-found error included — yields
(false, nil); every other failure is propagated as (false, err). -/
theorem C10_associationExists_policy (api : EksApi) (sa : ServiceAccount) :
    ((∃ a, getPodIdentityAssociation api sa = .ok a) ↔
       associationExists api sa = (true, none))
  ∧ (∀ e, getPodIdentityAssociation api sa = .error e →
       (containsSubstr e.msg "not found" = true →
          associationExists api sa = (false, none))
     ∧ (containsSubstr e.msg "not found" = false →
          associationExists api sa = (false, some e)))
  ∧ (∀ e, getAnn sa PodIdentityAssociationIDAnnotation ≠ "" →
       api.describeResp (getAnn sa PodIdentityAssociationIDAnnotation) = .error e →
       isNotFoundError e = true →
       associationExists api sa = (false, none)) := by
  refine ⟨⟨?_, ?_⟩, ?_, ?_⟩
  · rintro ⟨a, ha⟩
    simp [associationExists, ha]
  · intro h
    rcases hg : getPodIdentityAssociation api sa with e | a
    · simp only [associationExists, hg] at h
      split at h <;> simp_all
    · exact ⟨a, rfl⟩
  · intro e he
    constructor <;> intro hc <;> simp [associationExists, he, hc]
  · intro e hid hdesc hnf
    have hg : getPodIdentityAssociation api sa =
        .error { reason := .other, msg := "Pod Identity Association not found" } := by
      simp [getPodIdentityAssociation, hid, hdesc, hnf]
    simp [associationExists, hg]
    decide

/-- A ServiceAccount carrying a stale cached association id. -/
def saStale : ServiceAccount :=
  { name := "test-sa", ns := "default",
    annotations := [( PodIdentityAssociationIDAnnotation, "a-1"),
                    ( PodIdentityAssociationRoleAnnotation, "arn:aws:iam::1:role/A")],
    finalizers := [ PodIdentityAssociationFinalizer ] }

/-- The live association for saStale's (namespace, serviceAccountName) pair,
registered under a different id than the cached one. -/
def assocLive : PodIdentityAssociation :=
  { id := "a-2", ns := "default", serviceAccountName := "test-sa" }

/-- An EKS world where the cached id "a-1" is stale (describe reports
not-found) but the listing holds the live association "a-2" for the same
pair; a create returns a fresh id "a-new". -/
def apiStale : EksApi :=
  { describeResp := fun _ =>
      .error { reason := .other,
               msg := "ResourceNotFoundException: association a-1 does not exist",
               isEksNotFoundType := true },
    createResp := fun _ => .ok "a-new",
    updateResp := fun _ => none,
    deleteResp := fun _ => none,
    listResp := .ok [assocLive] }

/-- A cluster API where every write succeeds. -/
def k8sOk : K8sApi :=
  { getResp := .ok saStale, updateSAResp := fun _ => none,
    ctrlUpdateResp := fun _ => none }

/-- Witness for C10: in the stale world the describe-by-cached-id failure is
reported as plain non-existence, (false, nil). -/
theorem C10_witness :
    getAnn saStale PodIdentityAssociationIDAnnotation = "a-1"
  ∧ associationExists apiStale saStale = (false, none) := by
  refine ⟨by decide, ?_⟩
  exact (C10_associationExists_policy apiStale saStale).2.2
    { reason := .other,
      msg := "ResourceNotFoundException: association a-1 does not exist",
      isEksNotFoundType := true }
    (by decide) rfl (by decide)

/-- C1 counterexample: with the cached id "a-1" stale and a live association
"a-2" for the same (namespace, serviceAccountName) in the listing, the
create/update resolution does NOT fall back to the listing: it reports
non-existence, and the create path then caches a freshly created "a-new" —
a duplicate of "a-2" for the pair. -/
theorem C1_counterexample :
    getAnn saStale PodIdentityAssociationIDAnnotation = "a-1"
  ∧ apiStale.listResp = .ok [assocLive]
  ∧ assocLive.ns = saStale.ns ∧ assocLive.serviceAccountName = saStale.name
  ∧ associationExists apiStale saStale = (false, none)
  ∧ ((reconcilePodIdentityAssociation apiStale k8sOk "cluster" [] saStale
        "arn:aws:iam::1:role/A" "").sa.map
          (fun s => getAnn s PodIdentityAssociationIDAnnotation)) = some "a-new"
  ∧ (reconcilePodIdentityAssociation apiStale k8sOk "cluster" [] saStale
        "arn:aws:iam::1:role/A" "").err = none := by
  refine ⟨by decide, rfl, by decide, by decide, by decide, by decide, by decide⟩

/-- C1 as amended: the fall back to listing all associations and scanning for
the (namespace, serviceAccountName) pair happens exactly when the cached
association-id annotation is absent or empty; when the cached id is present
but stale, resolution instead reports non-existence ((false, nil)), after
which the create path runs — staleness of the cache can produce a duplicate
association. -/
theorem C1_resolution_fallback (api : EksApi) (sa : ServiceAccount) :
    (getAnn sa PodIdentityAssociationIDAnnotation = "" →
       getPodIdentityAssociation api sa = findAssociationByServiceAccount api sa)
  ∧ (∀ e, getAnn sa PodIdentityAssociationIDAnnotation ≠ "" →
       api.describeResp (getAnn sa PodIdentityAssociationIDAnnotation) = .error e →
       isNotFoundError e = true →
       getPodIdentityAssociation api sa =
           .error { reason := .other, msg := "Pod Identity Association not found" }
     ∧ associationExists api sa = (false, none)) := by
  constructor
  · intro h
    simp [getPodIdentityAssociation, h]
  · intro e hid hdesc hnf
    have hg : getPodIdentityAssociation api sa =
        .error { reason := .other, msg := "Pod Identity Association not found" } := by
      simp [getPodIdentityAssociation, hid, hdesc, hnf]
    refine ⟨hg, ?_⟩
    simp [associationExists, hg]
    decide

/-- Witness for the amended C1 in the stale world: the stale describe yields
the fabricated not-found resolution and the (false, nil) existence answer. -/
theorem C1_witness :
    getPodIdentityAssociation apiStale saStale =
        .error { reason := .other, msg := "Pod Identity Association not found" }
  ∧ associationExists apiStale saStale = (false, none) :=
  (C1_resolution_fallback apiStale saStale).2
    { reason := .other,
      msg := "ResourceNotFoundException: association a-1 does not exist",
      isEksNotFoundType := true }
    (by decide) rfl (by decide)

/-- C7: deleting the external association is idempotent — when the remote API
reports not-found while resolving (empty cached id and a not-found scan) or
while deleting (either the cached or the scan-resolved id), the delete
returns nil; and with the delete succeeding, a deletion reconcile whose
cluster-API writes succeed removes the finalizer and ends with an empty
result and nil error. -/
theorem C7_delete_idempotent (api : EksApi) (k8s : K8sApi) (counts : RetryCounts)
    (sa : ServiceAccount)
    (hnf :
      (getAnn sa PodIdentityAssociationIDAnnotation = "" ∧
         (∃ e, findAssociationByServiceAccount api sa = .error e ∧
            isNotFoundError e = true))
      ∨ (getAnn sa PodIdentityAssociationIDAnnotation = "" ∧
         (∃ a, findAssociationByServiceAccount api sa = .ok a ∧
            (∃ e, api.deleteResp a.id = some e ∧ isNotFoundError e = true)))
      ∨ (getAnn sa PodIdentityAssociationIDAnnotation ≠ "" ∧
         (∃ e, api.deleteResp (getAnn sa PodIdentityAssociationIDAnnotation) = some e ∧
            isNotFoundError e = true))) :
    deletePodIdentityAssociationAws api sa = none
  ∧ (containsFinalizer sa PodIdentityAssociationFinalizer = true →
     (∀ s, k8s.updateSAResp s = none) →
     (∀ s, k8s.ctrlUpdateResp s = none) →
     sa.hasDeletionTimestamp = true →
     ∃ s, handleDeletion api k8s counts sa = ⟨counts, some s, {}, none⟩
        ∧ containsFinalizer s PodIdentityAssociationFinalizer = false) := by
  have hdel : deletePodIdentityAssociationAws api sa = none := by
    rcases hnf with ⟨hid, e, hfind, hnfe⟩ | ⟨hid, a, hfind, e, hresp, hnfe⟩ |
      ⟨hid, e, hresp, hnfe⟩
    · simp [deletePodIdentityAssociationAws, hid, hfind, hnfe]
    · simp [deletePodIdentityAssociationAws, deleteById, hid, hfind, hresp, hnfe]
    · simp [deletePodIdentityAssociationAws, deleteById, hid, hresp, hnfe]
  refine ⟨hdel, ?_⟩
  intro hfin hup hctrl _
  have hc : deletePodIdentityAssociationCtrl api k8s sa =
      (if sa.annotations.isEmpty then sa
       else delAnn (delAnn sa PodIdentityAssociationAssumeRoleAnnotation)
              PodIdentityAssociationIDAnnotation, none) := by
    by_cases hann : sa.annotations.isEmpty <;>
      simp [deletePodIdentityAssociationCtrl, hdel, hann, hup]
  refine ⟨removeFinalizer
    (if sa.annotations.isEmpty then sa
     else delAnn (delAnn sa PodIdentityAssociationAssumeRoleAnnotation)
            PodIdentityAssociationIDAnnotation) PodIdentityAssociationFinalizer,
    ?_, containsFinalizer_removeFinalizer _ _⟩
  simp [handleDeletion, hfin, hc, hctrl]

/-- A ServiceAccount being deleted that still carries its cleanup finalizer
and cached association id. -/
def saDeleting : ServiceAccount :=
  { name := "test-sa", ns := "default",
    annotations := [( PodIdentityAssociationIDAnnotation, "a-1"),
                    ( PodIdentityAssociationRoleAnnotation, "arn:aws:iam::1:role/A")],
    finalizers := [ PodIdentityAssociationFinalizer ],
    hasDeletionTimestamp := true }

/-- An EKS world whose delete call answers that the association is already
absent. -/
def apiDeleteGone : EksApi :=
  { describeResp := fun _ =>
      .error { reason := .other, msg := "ResourceNotFoundException",
               isEksNotFoundType := true },
    createResp := fun _ => .ok "a-new",
    updateResp := fun _ => none,
    deleteResp := fun _ =>
      some { reason := .other,
             msg := "ResourceNotFoundException: association a-1 does not exist",
             isEksNotFoundType := true },
    listResp := .ok [] }

/-- A cluster API for the deleting object where every write succeeds. -/
def k8sDeleting : K8sApi :=
  { getResp := .ok saDeleting, updateSAResp := fun _ => none,
    ctrlUpdateResp := fun _ => none }

/-- Witness for C7: deleting the already-absent association succeeds and the
deletion reconcile strips the finalizer. -/
theorem C7_witness :
    deletePodIdentityAssociationAws apiDeleteGone saDeleting = none
  ∧ ∃ s, handleDeletion apiDeleteGone k8sDeleting [] saDeleting = ⟨[], some s, {}, none⟩
       ∧ containsFinalizer s PodIdentityAssociationFinalizer = false := by
  have h := C7_delete_idempotent apiDeleteGone k8sDeleting [] saDeleting
    (Or.inr (Or.inr ⟨by decide,
      ⟨{ reason := .other,
         msg := "ResourceNotFoundException: association a-1 does not exist",
         isEksNotFoundType := true }, rfl, by decide⟩⟩))
  exact ⟨h.1, h.2 (by decide) (fun _ => rfl) (fun _ => rfl) (by decide)⟩

/-- An EKS world whose delete call fails with a Permanent-classified error
(an invalid-argument style failure, no not-found marker). -/
def apiDeletePermanentErr : EksApi :=
  { describeResp := fun _ => .ok { id := "a-1", ns := "default",
                                   serviceAccountName := "test-sa" },
    createResp := fun _ => .ok "a-new",
    updateResp := fun _ => none,
    deleteResp := fun _ =>
      some { reason := .invalid, msg := "InvalidParameterException: bad role arn" },
    listResp := .ok [] }

/-- An EKS world whose delete call fails with a Transient-classified error. -/
def apiDeleteTransientErr : EksApi :=
  { describeResp := fun _ => .ok { id := "a-1", ns := "default",
                                   serviceAccountName := "test-sa" },
    createResp := fun _ => .ok "a-new",
    updateResp := fun _ => none,
    deleteResp := fun _ =>
      some { reason := .timeout, msg := "RequestTimeout: request timed out" },
    listResp := .ok [] }

/-- C2, behavior of the code at the failing inputs: in the deletion branch a
Permanent-classified delete failure, and a Transient-classified delete
failure with the retry count at the attempt ceiling, both end the cycle with
an empty result and nil error while the cleanup finalizer is STILL on the
object — `handleDeletion` returns `HandleDeletionError`'s verdict before the
finalizer-removal step, so the claimed removal never happens. -/
theorem C2_code_behavior :
    containsFinalizer saDeleting PodIdentityAssociationFinalizer = true
  ∧ handleDeletion apiDeletePermanentErr k8sDeleting [] saDeleting
      = ⟨[], some saDeleting, {}, none⟩
  ∧ handleDeletion apiDeleteTransientErr k8sDeleting
      [("default/test-sa", 5)] saDeleting
      = ⟨[("default/test-sa", 5)], some saDeleting, {}, none⟩
  ∧ (handleDeletion apiDeletePermanentErr k8sDeleting [] saDeleting).sa.map
      (fun s => containsFinalizer s PodIdentityAssociationFinalizer) = some true := by
  refine ⟨by decide, by decide, by decide, by decide⟩

/-- A ServiceAccount with the role annotation, the finalizer, and no cached
association id. -/
def saCreating : ServiceAccount :=
  { name := "test-sa", ns := "default",
    annotations := [( PodIdentityAssociationRoleAnnotation, "arn:aws:iam::1:role/A")],
    finalizers := [ PodIdentityAssociationFinalizer ] }

/-- An EKS world with no associations where the create call fails with a
throttling-style (Transient-classified) error. -/
def apiCreateThrottled : EksApi :=
  { describeResp := fun _ =>
      .error { reason := .other, msg := "ResourceNotFoundException",
               isEksNotFoundType := true },
    createResp := fun _ =>
      .error { reason := .other, msg := "ThrottlingException: rate exceeded" },
    updateResp := fun _ => none,
    deleteResp := fun _ => none,
    listResp := .ok [] }

/-- A cluster API fetching saCreating, every write succeeding. -/
def k8sCreating : K8sApi :=
  { getResp := .ok saCreating, updateSAResp := fun _ => none,
    ctrlUpdateResp := fun _ => none }

/-- C3 counterexample: after a successful fetch, a throttled create makes
Reconcile hand the raw (wrapped) remote error back to the dispatcher — the
create/update helpers deliberately return the original error when the
handler's verdict requeues, so not every remote failure is translated into a
scheduling decision with nil error. -/
theorem C3_counterexample :
    k8sCreating.getResp = .ok saCreating
  ∧ (reconcile apiCreateThrottled k8sCreating "cluster" []).err
      = some { reason := .other,
               msg := "failed to create Pod Identity Association: ThrottlingException: rate exceeded" }
  ∧ (reconcile apiCreateThrottled k8sCreating "cluster" []).err ≠ none := by
  refine ⟨rfl, by decide, by decide⟩

/-- C3 as amended: the deletion branch, the cleanup branch, an
existence-check failure in the create/update branch, and a failure to
persist the association-id annotation after a successful create/update all
translate the failure into a scheduling decision with nil error; but a
create/update call failure whose handler verdict requeues is returned to the
dispatcher as the raw wrapped remote error (as C3_counterexample shows), and
a failure to persist a newly added finalizer is likewise returned raw. -/
theorem C3_error_translation (api : EksApi) (k8s : K8sApi)
    (clusterName : String) (counts : RetryCounts) (sa : ServiceAccount) :
    (handleDeletion api k8s counts sa).err = none
  ∧ (cleanupPodIdentityAssociation api k8s counts sa).err = none
  ∧ (∀ roleArn assumeRoleArn e, (associationExists api sa).2 = some e →
       (reconcilePodIdentityAssociation api k8s clusterName counts sa
          roleArn assumeRoleArn).err = none)
  ∧ (∀ roleArn assumeRoleArn, (associationExists api sa).2 = none →
       (if (associationExists api sa).1 then
          ∃ i, updatePodIdentityAssociationAws api clusterName sa roleArn
                 assumeRoleArn = .ok i
        else
          ∃ p, createPodIdentityAssociationAws api clusterName sa roleArn
                 assumeRoleArn = .ok p) →
       (reconcilePodIdentityAssociation api k8s clusterName counts sa
          roleArn assumeRoleArn).err = none)
  ∧ (∀ roleArn e, k8s.getResp = .ok sa →
       sa.hasDeletionTimestamp = false →
       lookupAnn sa PodIdentityAssociationRoleAnnotation = some roleArn →
       containsFinalizer sa PodIdentityAssociationFinalizer = false →
       k8s.ctrlUpdateResp (addFinalizer sa PodIdentityAssociationFinalizer) = some e →
       reconcile api k8s clusterName counts =
         ⟨counts, some (addFinalizer sa PodIdentityAssociationFinalizer), {}, some e⟩) := by
  refine ⟨?_, ?_, ?_, ?_, ?_⟩
  · by_cases hf : containsFinalizer sa PodIdentityAssociationFinalizer = true
    · rcases hc : deletePodIdentityAssociationCtrl api k8s sa with ⟨sa', oe⟩
      rcases oe with _ | e
      · rcases hu : k8s.ctrlUpdateResp
            (removeFinalizer sa' PodIdentityAssociationFinalizer) with _ | e2
        · simp [handleDeletion, hf, hc, hu]
        · rcases hh : handleDeletionError counts
              (removeFinalizer sa' PodIdentityAssociationFinalizer) (some e2)
            with ⟨c, r, er⟩
          simp [handleDeletion, hf, hc, hu, hh,
            err_of_handleDeletionError _ _ _ _ _ _ hh]
      · rcases hh : handleDeletionError counts sa' (some e) with ⟨c, r, er⟩
        simp [handleDeletion, hf, hc, hh,
          err_of_handleDeletionError _ _ _ _ _ _ hh]
    · simp [handleDeletion, hf]
  · by_cases hf : containsFinalizer sa PodIdentityAssociationFinalizer = true
    · rcases hc : deletePodIdentityAssociationCtrl api k8s sa with ⟨sa', oe⟩
      rcases oe with _ | e
      · rcases hu : k8s.updateSAResp
            (removeFinalizer sa' PodIdentityAssociationFinalizer) with _ | e2
        · simp [cleanupPodIdentityAssociation, hf, hc, hu]
        · rcases hh : handleDeletionError counts
              (removeFinalizer sa' PodIdentityAssociationFinalizer) (some e2)
            with ⟨c, r, er⟩
          simp [cleanupPodIdentityAssociation, hf, hc, hu, hh,
            err_of_handleDeletionError _ _ _ _ _ _ hh]
      · rcases hh : handleDeletionError counts sa' (some e) with ⟨c, r, er⟩
        simp [cleanupPodIdentityAssociation, hf, hc, hh,
          err_of_handleDeletionError _ _ _ _ _ _ hh]
    · simp [cleanupPodIdentityAssociation, hf]
  · intro roleArn assumeRoleArn e he
    rcases hx : associationExists api sa with ⟨b, oe⟩
    rw [hx] at he
    simp only at he
    subst he
    rcases hh : handleError counts sa (some e) with ⟨c, r, er⟩
    simp [reconcilePodIdentityAssociation, hx, hh,
      err_of_handleError _ _ _ _ _ _ hh]
  · intro roleArn assumeRoleArn hex hok
    rcases hx : associationExists api sa with ⟨b, oe⟩
    rw [hx] at hex
    simp only at hex
    subst hex
    rw [hx] at hok
    cases b with
    | true =>
      simp only [if_pos rfl] at hok
      obtain ⟨i, hu⟩ := hok
      by_cases hi : i = ""
      · subst hi
        simp [reconcilePodIdentityAssociation, hx,
          updatePodIdentityAssociationCtrl, hu]
      · rcases hk : k8s.updateSAResp
            (setAnn sa PodIdentityAssociationIDAnnotation i) with _ | e2
        · simp [reconcilePodIdentityAssociation, hx,
            updatePodIdentityAssociationCtrl, hu, hi, hk]
        · rcases hh : handleError counts
              (setAnn sa PodIdentityAssociationIDAnnotation i) (some e2)
            with ⟨c, r, er⟩
          simp [reconcilePodIdentityAssociation, hx,
            updatePodIdentityAssociationCtrl, hu, hi, hk, hh,
            err_of_handleError _ _ _ _ _ _ hh]
    | false =>
      simp only [Bool.false_eq_true, if_neg] at hok
      obtain ⟨⟨sa1, i⟩, hc⟩ := hok
      by_cases hi : i = ""
      · subst hi
        simp [reconcilePodIdentityAssociation, hx,
          createPodIdentityAssociationCtrl, hc]
      · rcases hk : k8s.updateSAResp
            (setAnn sa1 PodIdentityAssociationIDAnnotation i) with _ | e2
        · simp [reconcilePodIdentityAssociation, hx,
            createPodIdentityAssociationCtrl, hc, hi, hk]
        · rcases hh : handleError counts
              (setAnn sa1 PodIdentityAssociationIDAnnotation i) (some e2)
            with ⟨c, r, er⟩
          simp [reconcilePodIdentityAssociation, hx,
            createPodIdentityAssociationCtrl, hc, hi, hk, hh,
            err_of_handleError _ _ _ _ _ _ hh]
  · intro roleArn e hget hdel hrole hfin hctrl
    simp [reconcile, hget, hdel, hrole, hfin, hctrl]

/-- An EKS world whose describe call fails with a plain server fault (no
not-found marker), so the existence check itself errors. -/
def apiDescribeFault : EksApi :=
  { describeResp := fun _ =>
      .error { reason := .other, msg := "InternalFault: server error" },
    createResp := fun _ => .ok "a-new",
    updateResp := fun _ => none,
    deleteResp := fun _ => none,
    listResp := .ok [] }

/-- An EKS world with no associations where the create call succeeds with the
fresh id "a-1". -/
def apiCreateOk : EksApi :=
  { describeResp := fun _ =>
      .error { reason := .other, msg := "ResourceNotFoundException",
               isEksNotFoundType := true },
    createResp := fun _ => .ok "a-1",
    updateResp := fun _ => none,
    deleteResp := fun _ => none,
    listResp := .ok [] }

/-- A ServiceAccount with the role annotation and no finalizer yet. -/
def saNoFinalizer : ServiceAccount :=
  { name := "test-sa", ns := "default",
    annotations := [( PodIdentityAssociationRoleAnnotation, "arn:aws:iam::1:role/A")],
    finalizers := [] }

/-- A cluster API where persisting the ServiceAccount via the K8sClient
fails with a conflict. -/
def k8sPersistFail : K8sApi :=
  { getResp := .ok saCreating, updateSAResp := fun _ => some errConflict,
    ctrlUpdateResp := fun _ => none }

/-- A cluster API fetching the finalizer-less object where the
controller-runtime update (used to persist the added finalizer) fails. -/
def k8sFinAddFail : K8sApi :=
  { getResp := .ok saNoFinalizer, updateSAResp := fun _ => none,
    ctrlUpdateResp := fun _ => some errConflict }

/-- Witness for the amended C3: an existence-check failure and an
annotation-persist failure are translated into nil-error outcomes, while a
finalizer-add persist failure is returned raw. -/
theorem C3_witness :
    (associationExists apiDescribeFault saStale).2
      = some { reason := .other,
               msg := "failed to describe Pod Identity Association: InternalFault: server error" }
  ∧ (reconcilePodIdentityAssociation apiDescribeFault k8sOk "cluster" [] saStale
       "arn:aws:iam::1:role/A" "").err = none
  ∧ (reconcilePodIdentityAssociation apiCreateOk k8sPersistFail "cluster" []
       saCreating "arn:aws:iam::1:role/A" "").err = none
  ∧ reconcile apiCreateOk k8sFinAddFail "cluster" []
      = ⟨[], some (addFinalizer saNoFinalizer PodIdentityAssociationFinalizer),
          {}, some errConflict⟩ := by
  refine ⟨by decide, ?_, ?_, ?_⟩
  · exact (C3_error_translation apiDescribeFault k8sOk "cluster" [] saStale).2.2.1
      "arn:aws:iam::1:role/A" ""
      { reason := .other,
        msg := "failed to describe Pod Identity Association: InternalFault: server error" }
      (by decide)
  · have hex : (associationExists apiCreateOk saCreating).2 = none := by decide
    have hok : if (associationExists apiCreateOk saCreating).1 then
        ∃ i, updatePodIdentityAssociationAws apiCreateOk "cluster" saCreating
               "arn:aws:iam::1:role/A" "" = .ok i
      else
        ∃ p, createPodIdentityAssociationAws apiCreateOk "cluster" saCreating
               "arn:aws:iam::1:role/A" "" = .ok p := by
      rw [if_neg]
      · exact ⟨_, rfl⟩
      · decide
    exact (C3_error_translation apiCreateOk k8sPersistFail "cluster" []
      saCreating).2.2.2.1 "arn:aws:iam::1:role/A" "" hex hok
  · have hget : k8sFinAddFail.getResp = .ok saNoFinalizer := rfl
    have hdel : saNoFinalizer.hasDeletionTimestamp = false := by decide
    have hrole : lookupAnn saNoFinalizer PodIdentityAssociationRoleAnnotation
        = some "arn:aws:iam::1:role/A" := by decide
    have hfin : containsFinalizer saNoFinalizer PodIdentityAssociationFinalizer
        = false := by decide
    have hctrl : k8sFinAddFail.ctrlUpdateResp
        (addFinalizer saNoFinalizer PodIdentityAssociationFinalizer)
        = some errConflict := rfl
    exact (C3_error_translation apiCreateOk k8sFinAddFail "cluster" []
      saNoFinalizer).2.2.2.2 "arn:aws:iam::1:role/A" errConflict hget hdel
      hrole hfin hctrl

/-- An EKS world with no associations where the create call fails with a
not-found-style (Permanent-classified) error. -/
def apiCreatePermanentErr : EksApi :=
  { describeResp := fun _ =>
      .error { reason := .other, msg := "ResourceNotFoundException",
               isEksNotFoundType := true },
    createResp := fun _ =>
      .error { reason := .notFound, msg := "ResourceNotFoundException: cluster gone" },
    updateResp := fun _ => none,
    deleteResp := fun _ => none,
    listResp := .ok [] }

/-- C9 counterexample: the role annotation is present, the association does
not exist, and the create fails with a Permanent-classified error; the
create helper's handler verdict does not requeue, so the helper falls
through and the reconcile ends on the success path — empty result, nil
error, retry count reset — yet the persisted object carries NO association-id
annotation. -/
theorem C9_counterexample :
    lookupAnn saCreating PodIdentityAssociationRoleAnnotation =
        some "arn:aws:iam::1:role/A"
  ∧ reconcile apiCreatePermanentErr k8sCreating "cluster" []
      = ⟨[("default/test-sa", 0)], some saCreating, {}, none⟩
  ∧ getAnn saCreating PodIdentityAssociationIDAnnotation = "" := by
  refine ⟨by decide, by decide, by decide⟩

/-- C9 as amended: when the existence check succeeds, the create/update call
itself succeeds with a NON-EMPTY association id, and the annotation persist
succeeds, a reconcile of a role-annotated object ends on the success path
with the cached association-id annotation set to that non-empty value; the
unamended claim fails when a Permanent-classified create/update failure
falls through to the same success return (C9_counterexample). -/
theorem C9_success_caches_id (api : EksApi) (k8s : K8sApi) (clusterName : String)
    (counts : RetryCounts) (sa : ServiceAccount) (roleArn assumeRoleArn : String)
    (hex : (associationExists api sa).2 = none)
    (hok : if (associationExists api sa).1 then
             ∃ i, updatePodIdentityAssociationAws api clusterName sa roleArn
                    assumeRoleArn = .ok i ∧ i ≠ ""
           else
             ∃ p, createPodIdentityAssociationAws api clusterName sa roleArn
                    assumeRoleArn = .ok p ∧ p.2 ≠ "")
    (hup : ∀ s, k8s.updateSAResp s = none) :
    ∃ s, reconcilePodIdentityAssociation api k8s clusterName counts sa
           roleArn assumeRoleArn = ⟨markSuccess counts s, some s, {}, none⟩
       ∧ getAnn s PodIdentityAssociationIDAnnotation ≠ "" := by
  rcases hx : associationExists api sa with ⟨b, oe⟩
  rw [hx] at hex
  simp only at hex
  subst hex
  rw [hx] at hok
  cases b with
  | true =>
    simp only [if_pos rfl] at hok
    obtain ⟨i, hu, hi⟩ := hok
    refine ⟨setAnn sa PodIdentityAssociationIDAnnotation i, ?_, ?_⟩
    · simp [reconcilePodIdentityAssociation, hx, updatePodIdentityAssociationCtrl,
        hu, hi, hup]
    · rw [getAnn_setAnn]
      exact hi
  | false =>
    simp only [Bool.false_eq_true, if_neg] at hok
    obtain ⟨⟨sa', i⟩, hcX, hi⟩ := hok
    simp only at hi
    refine ⟨setAnn sa' PodIdentityAssociationIDAnnotation i, ?_, ?_⟩
    · simp [reconcilePodIdentityAssociation, hx, createPodIdentityAssociationCtrl,
        hcX, hi, hup]
    · rw [getAnn_setAnn]
      exact hi

/-- Witness for the amended C9: the role-annotated object's successful
create-reconcile caches the non-empty id "a-1". -/
theorem C9_witness :
    ∃ s, reconcilePodIdentityAssociation apiCreateOk k8sCreating "cluster" []
           saCreating "arn:aws:iam::1:role/A" "" = ⟨markSuccess [] s, some s, {}, none⟩
       ∧ getAnn s PodIdentityAssociationIDAnnotation ≠ "" := by
  apply C9_success_caches_id
  · decide
  · rw [if_neg]
    · exact ⟨_, rfl, by decide⟩
    · decide
  · intro s
    rfl

/-- C8: tagging is controlled by the tagging annotation — enabled by default
and disabled exactly when the value is the literal "false"; a create with
tagging disabled carries no descriptive tag set; and the tagging flag never
changes the role ARNs placed in the request. -/
theorem C8_tagging_policy (sa : ServiceAccount)
    (clusterName roleArn assumeRoleArn : String) :
    (taggingEnabled sa = false ↔
       lookupAnn sa PodIdentityAssociationTaggingAnnotation = some "false")
  ∧ (lookupAnn sa PodIdentityAssociationTaggingAnnotation = none →
       taggingEnabled sa = true)
  ∧ (buildCreateInputTagged clusterName sa roleArn assumeRoleArn false).tags = []
  ∧ (∀ b, (buildCreateInputTagged clusterName sa roleArn assumeRoleArn b).roleArn
        = roleArn)
  ∧ (∀ b, (buildCreateInputTagged clusterName sa roleArn assumeRoleArn b).targetRoleArn
        = (buildCreateInputTagged clusterName sa roleArn assumeRoleArn true).targetRoleArn) := by
  refine ⟨?_, ?_, ?_, ?_, ?_⟩
  · constructor
    · intro h
      rcases hl : lookupAnn sa PodIdentityAssociationTaggingAnnotation with _ | v
      · simp [taggingEnabled, hl] at h
      · simp [taggingEnabled, hl] at h
        simp [h]
    · intro h
      simp [taggingEnabled, h]
  · intro h
    simp [taggingEnabled, h]
  · simp [buildCreateInputTagged]
  · intro b
    simp [buildCreateInputTagged]
  · intro b
    simp [buildCreateInputTagged]

/-- A ServiceAccount whose tagging annotation is the literal "false". -/
def saTaggingOff : ServiceAccount :=
  { name := "test-sa", ns := "default",
    annotations := [( PodIdentityAssociationRoleAnnotation, "arn:aws:iam::1:role/A"),
                    ( PodIdentityAssociationTaggingAnnotation, "false")],
    finalizers := [ PodIdentityAssociationFinalizer ] }

/-- Witness for C8: with the annotation set to "false" tagging is disabled,
the create request carries no tags, and the role fields match the
tagging-enabled request. -/
theorem C8_witness :
    taggingEnabled saTaggingOff = false
  ∧ (buildCreateInputTagged "cluster" saTaggingOff "arn:aws:iam::1:role/A" "B"
       false).tags = []
  ∧ (buildCreateInputTagged "cluster" saTaggingOff "arn:aws:iam::1:role/A" "B"
       false).roleArn = "arn:aws:iam::1:role/A"
  ∧ (buildCreateInputTagged "cluster" saTaggingOff "arn:aws:iam::1:role/A" "B"
       false).targetRoleArn
      = (buildCreateInputTagged "cluster" saTaggingOff "arn:aws:iam::1:role/A" "B"
       true).targetRoleArn := by
  have h := C8_tagging_policy saTaggingOff "cluster" "arn:aws:iam::1:role/A" "B"
  exact ⟨h.1.mpr (by decide), h.2.2.1, h.2.2.2.1 false, h.2.2.2.2 false⟩

end PiaOperator
